import Mathlib

/-!
Shallow embedding of `src/staticfiles/js/main.22dad8aa4d0e.js`, the single
script of the Electro-ecommerce repository: a page interaction controller
that wires scroll and click listeners, steps a quantity input, configures
five owl-carousel regions behind presence guards, and intercepts clicks on
placeholder links.
-/

namespace ElectroMain

/-! ## JavaScript numeric values

The quantity handler reads `input.val()` (a string) and combines two
numeric readings of it: `parseFloat(oldValue)` and the implicit `Number`
coercion performed by the comparison `oldValue > 0`.  A JavaScript number
relevant here is either NaN or a finite rational. -/

/-- A JavaScript number as used by the quantity handler: NaN or a finite
value (modelled as a rational; the script only adds and subtracts 1, so no
floating-point rounding is involved on the values of interest). -/
inductive JSNum where
  | nan : JSNum
  | num : ℚ → JSNum
  deriving DecidableEq, Repr

/-- JavaScript addition of a number and a finite literal: NaN is absorbing
(`NaN + 1` is `NaN`, as on line 161 of the source when the parse fails). -/
def jsAdd : JSNum → ℚ → JSNum
  | JSNum.nan, _ => JSNum.nan
  | JSNum.num q, r => JSNum.num (q + r)

/-- The JavaScript comparison `x > 0`: false when `x` is NaN (every
relational comparison with NaN is false), otherwise the rational order.
This models the guard `oldValue > 0` on line 163. -/
def jsGtZero : JSNum → Bool
  | JSNum.nan => false
  | JSNum.num q => decide (0 < q)

/-- A quantity input field value, abstracted by its two numeric readings:
`toNumber` is the result of the implicit `Number` coercion used by the
comparison `oldValue > 0`, and `parseFloatV` is the result of
`parseFloat(oldValue)`.  For a canonical numeric string both agree; for the
empty string `Number` gives 0 while `parseFloat` gives NaN; for a string
that is not a number as a whole `Number` gives NaN (while `parseFloat` may
still parse a numeric prefix, as in the string 3abc). -/
structure FieldVal where
  toNumber : JSNum
  parseFloatV : JSNum
  deriving DecidableEq, Repr

/-- The field holding the canonical string of a finite number `v`: both
readings agree on `v`. -/
def numericField (v : ℚ) : FieldVal :=
  { toNumber := JSNum.num v, parseFloatV := JSNum.num v }

/-- The field holding the empty string: `Number` reads 0, `parseFloat`
reads NaN. -/
def emptyField : FieldVal :=
  { toNumber := JSNum.num 0, parseFloatV := JSNum.nan }

/-- The field holding non-numeric text such as the string abc: both
readings are NaN. -/
def nonNumericField : FieldVal :=
  { toNumber := JSNum.nan, parseFloatV := JSNum.nan }

/-- The field holding text with a numeric prefix, such as the string 3abc:
`Number` reads NaN (the whole string is not a number) while `parseFloat`
reads the prefix 3. -/
def garbledField : FieldVal :=
  { toNumber := JSNum.nan, parseFloatV := JSNum.num 3 }

/-- The `.quantity button` click handler, lines 157 to 170 of the source.
`isPlus` is `button.hasClass('btn-plus')`.  The returned `JSNum` is the
value written back into the input by `.val(newVal)`.

```
if (button.hasClass('btn-plus')) {
    var newVal = parseFloat(oldValue) + 1;
} else {
    if (oldValue > 0) {
        var newVal = parseFloat(oldValue) - 1;
    } else {
        newVal = 0;
    }
}
``` -/
def quantityClick (isPlus : Bool) (fv : FieldVal) : JSNum :=
  if isPlus then
    jsAdd fv.parseFloatV 1
  else
    if jsGtZero fv.toNumber then
      jsAdd fv.parseFloatV (-1)
    else
      JSNum.num 0

/-! ## Scroll reactor -/

/-- The sticky-navbar scroll listener, lines 22 to 28 of the source.  The
class list of `.nav-bar` is modelled as a finite set of class names;
`addClass('sticky-top shadow-sm')` inserts both names and
`removeClass('sticky-top shadow-sm')` erases both.

```
$(window).scroll(function () {
    if ($(this).scrollTop() > 45) {
        $('.nav-bar').addClass('sticky-top shadow-sm');
    } else {
        $('.nav-bar').removeClass('sticky-top shadow-sm');
    }
});
``` -/
def navScroll (o : ℚ) (cs : Finset String) : Finset String :=
  if 45 < o then
    insert "sticky-top" (insert "shadow-sm" cs)
  else
    (cs.erase "sticky-top").erase "shadow-sm"

/-- A jQuery visibility-changing call on an element.  The two fade forms
carry a duration argument and animate; the two instant forms are the
non-animated toggles the script could have used instead but does not. -/
inductive VisibilityAction where
  | instantShow : VisibilityAction
  | instantHide : VisibilityAction
  | fadeIn : String → VisibilityAction
  | fadeOut : String → VisibilityAction
  deriving DecidableEq, Repr

/-- Whether the action leaves the element visible. -/
def VisibilityAction.makesVisible : VisibilityAction → Bool
  | VisibilityAction.instantShow => true
  | VisibilityAction.fadeIn _ => true
  | VisibilityAction.instantHide => false
  | VisibilityAction.fadeOut _ => false

/-- Whether the action is an animated fade rather than an instant toggle. -/
def VisibilityAction.isAnimatedFade : VisibilityAction → Bool
  | VisibilityAction.fadeIn _ => true
  | VisibilityAction.fadeOut _ => true
  | VisibilityAction.instantShow => false
  | VisibilityAction.instantHide => false

/-- The duration category argument of a fade, when the action is a fade. -/
def VisibilityAction.fadeDuration : VisibilityAction → Option String
  | VisibilityAction.fadeIn d => some d
  | VisibilityAction.fadeOut d => some d
  | VisibilityAction.instantShow => none
  | VisibilityAction.instantHide => none

/-- The back-to-top scroll listener, lines 175 to 181 of the source: the
visibility action applied to `.back-to-top` at scroll offset `o`.

```
$(window).scroll(function () {
    if ($(this).scrollTop() > 300) {
        $('.back-to-top').fadeIn('slow');
    } else {
        $('.back-to-top').fadeOut('slow');
    }
});
``` -/
def backToTopScroll (o : ℚ) : VisibilityAction :=
  if 300 < o then
    VisibilityAction.fadeIn "slow"
  else
    VisibilityAction.fadeOut "slow"

/-! ## Owl-carousel options records -/

/-- An owl-carousel options object, restricted to the fields the script
uses.  A field the script leaves out of a given record is `none` (the
library then applies its own default).  `responsive` maps a breakpoint
width in px to an item count. -/
structure OwlOptions where
  items : Option ℕ
  autoplay : Bool
  smartSpeed : ℕ
  center : Option Bool
  dots : Option Bool
  dotsData : Option Bool
  loop : Bool
  margin : Option ℕ
  nav : Bool
  navText : List String
  responsiveClass : Option Bool
  responsive : Option (List (ℕ × ℕ))
  deriving DecidableEq, Repr

/-- Options of the `.header-carousel` call, lines 33 to 46. -/
def headerCarouselOptions : OwlOptions :=
  { items := some 1
    autoplay := true
    smartSpeed := 2000
    center := some false
    dots := some false
    dotsData := none
    loop := true
    margin := some 0
    nav := true
    navText := ["<i class=\"bi bi-arrow-left\"></i>",
                "<i class=\"bi bi-arrow-right\"></i>"]
    responsiveClass := none
    responsive := none }

/-- Options of the `.productList-carousel` call, lines 52 to 81. -/
def productListCarouselOptions : OwlOptions :=
  { items := none
    autoplay := true
    smartSpeed := 2000
    center := none
    dots := some false
    dotsData := none
    loop := true
    margin := some 25
    nav := true
    navText := ["<i class=\"fas fa-chevron-left\"></i>",
                "<i class=\"fas fa-chevron-right\"></i>"]
    responsiveClass := some true
    responsive := some [(0, 1), (576, 1), (768, 2), (992, 2), (1200, 3)] }

/-- Options of the `.productImg-carousel` call, lines 86 to 98. -/
def productImgCarouselOptions : OwlOptions :=
  { items := some 1
    autoplay := true
    smartSpeed := 1500
    center := none
    dots := some false
    dotsData := none
    loop := true
    margin := some 25
    nav := true
    navText := ["<i class=\"bi bi-arrow-left\"></i>",
                "<i class=\"bi bi-arrow-right\"></i>"]
    responsiveClass := none
    responsive := none }

/-- Options of the `.single-carousel` call, lines 104 to 116. -/
def singleCarouselOptions : OwlOptions :=
  { items := some 1
    autoplay := true
    smartSpeed := 1500
    center := none
    dots := some true
    dotsData := some true
    loop := true
    margin := none
    nav := true
    navText := ["<i class=\"bi bi-arrow-left\"></i>",
                "<i class=\"bi bi-arrow-right\"></i>"]
    responsiveClass := none
    responsive := none }

/-- Options of the `.related-carousel` call, lines 122 to 151. -/
def relatedCarouselOptions : OwlOptions :=
  { items := none
    autoplay := true
    smartSpeed := 1500
    center := none
    dots := some false
    dotsData := none
    loop := true
    margin := some 25
    nav := true
    navText := ["<i class=\"fas fa-chevron-left\"></i>",
                "<i class=\"fas fa-chevron-right\"></i>"]
    responsiveClass := some true
    responsive := some [(0, 1), (576, 1), (768, 2), (992, 3), (1200, 4)] }

/-- The five carousel calls of the script in source order, each as the
selector (without the leading dot) paired with its options record. -/
def carouselInits : List (String × OwlOptions) :=
  [("header-carousel", headerCarouselOptions),
   ("productList-carousel", productListCarouselOptions),
   ("productImg-carousel", productImgCarouselOptions),
   ("single-carousel", singleCarouselOptions),
   ("related-carousel", relatedCarouselOptions)]

/-- Whether an options record carries responsive item-count breakpoints at
exactly the widths 0, 576, 768, 992 and 1200 px. -/
def hasResponsiveBreakpoints (o : OwlOptions) : Bool :=
  match o.responsive with
  | none => false
  | some bps => decide (bps.map Prod.fst = [0, 576, 768, 992, 1200])

/-! ## Startup sequencer and presence guards -/

/-- The optional globals the script probes before using them:
`wowDefined` is `typeof WOW !== 'undefined'` (line 16), `jqFnDefined` is
the truthiness of `$.fn` and `owlDefined` that of `$.fn.owlCarousel`
(the guard `$.fn && $.fn.owlCarousel` on lines 32, 51, 85, 103, 121). -/
structure Env where
  wowDefined : Bool
  jqFnDefined : Bool
  owlDefined : Bool
  deriving DecidableEq, Repr

/-- Calling `new WOW().init()` (line 17): throws a ReferenceError when the
WOW global is absent, succeeds otherwise. -/
def callWowInit (env : Env) : Except String Unit :=
  if env.wowDefined then Except.ok () else Except.error "WOW is not defined"

/-- Calling `$(sel).owlCarousel(opts)` (lines 33, 52, 86, 104, 122): throws
a TypeError when the plugin did not register itself on `$.fn`, succeeds and
records the initialization otherwise. -/
def callOwlCarousel (env : Env) (sel : String) (opts : OwlOptions) :
    Except String (String × OwlOptions) :=
  if env.jqFnDefined && env.owlDefined then Except.ok (sel, opts)
  else Except.error "owlCarousel is not a function"

/-- One guarded carousel block, `if ($.fn && $.fn.owlCarousel) { ... }`:
the call only happens when the guard passes. -/
def guardedCarousel (env : Env) (sel : String) (opts : OwlOptions) :
    Except String (List (String × OwlOptions)) :=
  if env.jqFnDefined && env.owlDefined then
    (callOwlCarousel env sel opts).map (fun r => [r])
  else
    Except.ok []

/-- What the immediately-invoked function expression has done by the time
it returns: which guarded initializers actually ran and which listeners got
registered. -/
structure StartupResult where
  wowInitialized : Bool
  carouselsInitialized : List (String × OwlOptions)
  navScrollRegistered : Bool
  quantityHandlerRegistered : Bool
  backToTopScrollRegistered : Bool
  backToTopClickRegistered : Bool
  placeholderInterceptorRegistered : Bool
  deriving DecidableEq, Repr

/-- The startup sequence of the script (the body of the IIFE, in source
order): the WOW guard (lines 16 to 18), the sticky-navbar listener
registration (line 22), the five guarded carousel blocks (lines 32 to 152),
the quantity-stepper listener (line 157), the back-to-top scroll and click
listeners (lines 175, 182) and the placeholder-link interceptor (line 189).
A throw anywhere aborts everything after it, which `Except` sequencing
captures. -/
def startup (env : Env) : Except String StartupResult := do
  let wowInit ←
    if env.wowDefined then do
      let _ ← callWowInit env
      pure true
    else
      pure false
  let c1 ← guardedCarousel env "header-carousel" headerCarouselOptions
  let c2 ← guardedCarousel env "productList-carousel" productListCarouselOptions
  let c3 ← guardedCarousel env "productImg-carousel" productImgCarouselOptions
  let c4 ← guardedCarousel env "single-carousel" singleCarouselOptions
  let c5 ← guardedCarousel env "related-carousel" relatedCarouselOptions
  pure
    { wowInitialized := wowInit
      carouselsInitialized := c1 ++ c2 ++ c3 ++ c4 ++ c5
      navScrollRegistered := true
      quantityHandlerRegistered := true
      backToTopScrollRegistered := true
      backToTopClickRegistered := true
      placeholderInterceptorRegistered := true }

/-! ## Back-to-top click handler -/

/-- The argument triple of the jQuery `animate` call: the `scrollTop`
target, the duration in milliseconds and the easing name. -/
structure ScrollAnimation where
  scrollTopTarget : ℚ
  durationMs : ℕ
  easing : String
  deriving DecidableEq, Repr

/-- What a click handler did: the animation it launched and whether it
suppressed the default navigation of the anchor (a jQuery handler that
returns false calls `preventDefault`). -/
structure ClickOutcome where
  animation : ScrollAnimation
  defaultPrevented : Bool
  deriving DecidableEq, Repr

/-- The `.back-to-top` click handler, lines 182 to 186 of the source.
`easingObjDefined` is the truthiness of `$.easing` and `expoDefined` that
of `$.easing.easeInOutExpo`; `startOffset` is the scroll offset at the
moment of the click (the handler never reads it, so the outcome cannot
depend on it).

```
$('.back-to-top').click(function () {
    var easing = ($.easing && $.easing.easeInOutExpo) ? 'easeInOutExpo' : 'swing';
    $('html, body').animate({scrollTop: 0}, 1500, easing);
    return false;
});
``` -/
def backToTopClick (easingObjDefined expoDefined : Bool) (startOffset : ℚ) :
    ClickOutcome :=
  { animation :=
      { scrollTopTarget := 0
        durationMs := 1500
        easing :=
          if easingObjDefined && expoDefined then "easeInOutExpo" else "swing" }
    defaultPrevented := true }

/-! ## Placeholder-link interceptor -/

/-- The delegated click handler on `a[href="#"]`, lines 189 to 193 of the
source: returns whether it called `e.preventDefault()`.  `hasDataBsToggle`
is `this.hasAttribute('data-bs-toggle')`.

```
$(document).on('click', 'a[href="#"]', function (e) {
    if (this.hasAttribute('data-bs-toggle')) return;
    e.preventDefault();
});
``` -/
def placeholderInterceptor (hasDataBsToggle : Bool) : Bool :=
  if hasDataBsToggle then false else true

/-- The page state a click on an empty-fragment anchor can affect. -/
structure PageState where
  scrollTop : ℚ
  urlFragment : String
  deriving DecidableEq, Repr

/-- The default browser navigation for an anchor with `href="#"` (external
browser contract): jump to the top of the page and set the empty URL
fragment. -/
def anchorHashDefaultNav (st : PageState) : PageState :=
  { scrollTop := 0, urlFragment := "#" }

/-- A full click on an `a[href="#"]` element: the interceptor runs first;
the browser applies the default navigation only when no handler called
`preventDefault`. -/
def clickEmptyHashAnchor (hasDataBsToggle : Bool) (st : PageState) :
    PageState :=
  if placeholderInterceptor hasDataBsToggle then st else anchorHashDefaultNav st

/-! ## Claims about the quantity stepper (C1, C2, C3, C10) -/

/-- C1, counterexample: the claim "a click on the decrement button writes
back max(v-1, 0); no decrement click ever writes a negative value" fails at
the quantity value 1/2 (field text 0.5): the guard 1/2 > 0 passes, so the
handler writes 1/2 - 1 = -1/2, which is negative and differs from
max(1/2 - 1, 0) = 0. -/
theorem quantity_decrement_fraction_counterexample :
    (0 : ℚ) ≤ 1/2 ∧
    quantityClick false (numericField (1/2)) = JSNum.num (-(1/2)) ∧
    JSNum.num (-(1/2)) ≠ JSNum.num (max ((1/2 : ℚ) - 1) 0) ∧
    (-(1/2) : ℚ) < 0 := by
  refine ⟨by norm_num, ?_, ?_, by norm_num⟩
  · norm_num [quantityClick, numericField, jsGtZero, jsAdd]
  · norm_num [JSNum.num.injEq]

/-- C1, amended: for every numeric quantity value v ≥ 0, an increment
click writes back v + 1; a decrement click writes back max(v-1, 0) and
never a negative value provided v = 0 or v ≥ 1 (in particular for every
integer quantity); for fractional v strictly between 0 and 1 the decrement
instead writes the negative value v - 1. -/
theorem quantity_step_integerlike (v : ℚ) (hv : 0 ≤ v) :
    quantityClick true (numericField v) = JSNum.num (v + 1) ∧
    ((v = 0 ∨ 1 ≤ v) →
      quantityClick false (numericField v) = JSNum.num (max (v - 1) 0) ∧
      0 ≤ max (v - 1) 0) := by
  constructor
  · rfl
  · rintro (rfl | h1)
    · norm_num [quantityClick, numericField, jsGtZero]
    · have h0 : (0 : ℚ) < v := lt_of_lt_of_le zero_lt_one h1
      have h : jsGtZero (JSNum.num v) = true := by
        simp [jsGtZero, h0]
      have hm : max (v - 1) 0 = v - 1 := max_eq_left (by linarith)
      refine ⟨?_, le_max_right _ _⟩
      simp [quantityClick, numericField, jsAdd, h, hm]
      ring

/-- C1, witness for `quantity_step_integerlike` at v = 2. -/
theorem quantity_step_integerlike_witness :
    (0 : ℚ) ≤ 2 ∧
    (quantityClick true (numericField 2) = JSNum.num (2 + 1) ∧
      (((2 : ℚ) = 0 ∨ 1 ≤ (2 : ℚ)) →
        quantityClick false (numericField 2) = JSNum.num (max ((2 : ℚ) - 1) 0) ∧
        0 ≤ max ((2 : ℚ) - 1) 0)) :=
  ⟨by norm_num, quantity_step_integerlike 2 (by norm_num)⟩

/-- C2, counterexample: on the empty field, an increment click writes back
NaN (`parseFloat` of the empty string is NaN and NaN + 1 is NaN), not the
value 1 the claim requires; the parse failure does propagate into the
field. -/
theorem quantity_increment_empty_counterexample :
    quantityClick true emptyField = JSNum.nan ∧
    JSNum.nan ≠ JSNum.num 1 :=
  ⟨rfl, by simp⟩

/-- C2, amended: for every quantity field value whose `parseFloat` reading
is NaN (the empty string and non-numeric text included), an increment click
writes back NaN: the increment path has no coercion of a parse failure
to 0, so the failure propagates into the field. -/
theorem quantity_increment_nan_propagates (fv : FieldVal)
    (h : fv.parseFloatV = JSNum.nan) :
    quantityClick true fv = JSNum.nan := by
  simp [quantityClick, h, jsAdd]

/-- C2, witness for `quantity_increment_nan_propagates` at the empty
field. -/
theorem quantity_increment_nan_propagates_witness :
    emptyField.parseFloatV = JSNum.nan ∧
    quantityClick true emptyField = JSNum.nan :=
  ⟨rfl, quantity_increment_nan_propagates emptyField rfl⟩

/-- C3, counterexample: the invariant "starting from any quantity value
v ≥ 0, the value written back is still ≥ 0" fails at the value 7/10: a
decrement click writes back 7/10 - 1 = -3/10 < 0. -/
theorem quantity_invariant_counterexample :
    (0 : ℚ) ≤ 7/10 ∧
    quantityClick false (numericField (7/10)) = JSNum.num (-(3/10)) ∧
    (-(3/10) : ℚ) < 0 := by
  refine ⟨by norm_num, ?_, by norm_num⟩
  norm_num [quantityClick, numericField, jsGtZero, jsAdd]

/-- C3, amended: starting from a quantity value v with v = 0 or v ≥ 1 (in
particular any integer quantity), after a click on either button the value
written back is a finite number ≥ 0; for fractional v strictly between 0
and 1 a decrement click violates the invariant. -/
theorem quantity_invariant_integerlike (v : ℚ) (hv : v = 0 ∨ 1 ≤ v)
    (isPlus : Bool) :
    ∃ w : ℚ, quantityClick isPlus (numericField v) = JSNum.num w ∧ 0 ≤ w := by
  have h0 : (0 : ℚ) ≤ v := by
    rcases hv with rfl | h1
    · exact le_refl 0
    · linarith
  cases isPlus
  · rcases hv with rfl | h1
    · refine ⟨0, ?_, le_refl 0⟩
      have h : jsGtZero (JSNum.num (0 : ℚ)) = false := by
        simp [jsGtZero]
      simp [quantityClick, numericField, h]
    · refine ⟨v - 1, ?_, by linarith⟩
      have hv0 : (0 : ℚ) < v := lt_of_lt_of_le zero_lt_one h1
      have h : jsGtZero (JSNum.num v) = true := by
        simp [jsGtZero, hv0]
      simp [quantityClick, numericField, jsAdd, h]
      ring
  · exact ⟨v + 1, rfl, by linarith⟩

/-- C3, witness for `quantity_invariant_integerlike` at v = 1 with a
decrement click. -/
theorem quantity_invariant_integerlike_witness :
    ((1 : ℚ) = 0 ∨ 1 ≤ (1 : ℚ)) ∧
    ∃ w : ℚ, quantityClick false (numericField 1) = JSNum.num w ∧ 0 ≤ w :=
  ⟨Or.inr le_rfl, quantity_invariant_integerlike 1 (Or.inr le_rfl) false⟩

/-- C10: for every field value read as 0 or NaN by the `Number` coercion
(which covers the empty string, whose `Number` reading is 0, and every
non-numeric text, whose `Number` reading is NaN), a decrement click writes
back exactly 0: the comparison `oldValue > 0` is false on both, so the
clamping branch runs and neither NaN nor a negative value is written. -/
theorem quantity_decrement_nonnumeric_safe (fv : FieldVal)
    (h : fv.toNumber = JSNum.num 0 ∨ fv.toNumber = JSNum.nan) :
    quantityClick false fv = JSNum.num 0 := by
  rcases h with h | h <;>
    · have hg : jsGtZero fv.toNumber = false := by
        simp [h, jsGtZero]
      simp [quantityClick, hg]

/-- C10, witness for `quantity_decrement_nonnumeric_safe` at the garbled
field (text 3abc: `Number` reads NaN although `parseFloat` reads 3; the
guard, not the parse, keeps the written value at 0). -/
theorem quantity_decrement_nonnumeric_safe_witness :
    (garbledField.toNumber = JSNum.num 0 ∨ garbledField.toNumber = JSNum.nan) ∧
    quantityClick false garbledField = JSNum.num 0 :=
  ⟨Or.inr rfl, quantity_decrement_nonnumeric_safe garbledField (Or.inr rfl)⟩

/-! ## Claims about the scroll reactor (C4, C5) -/

/-- C4: for every scroll offset o and every prior class list of `.nav-bar`,
after the scroll handler runs the classes sticky-top and shadow-sm are both
present iff o > 45, and re-applying the handler at the same offset leaves
the class list unchanged (the handler is an idempotent function of the
offset). -/
theorem navbar_sticky_iff_over_45 (o : ℚ) (cs : Finset String) :
    (("sticky-top" ∈ navScroll o cs ∧ "shadow-sm" ∈ navScroll o cs) ↔
      45 < o) ∧
    navScroll o (navScroll o cs) = navScroll o cs := by
  by_cases h : 45 < o
  · constructor
    · simp [navScroll, h]
    · ext x
      simp [navScroll, h]
  · constructor
    · simp [navScroll, h]
    · ext x
      simp [navScroll, h]

/-- C5: for every scroll offset o, the scroll handler applies an animated
fade to `.back-to-top` with the fixed duration category slow (never an
instant toggle), and the action makes the control visible iff o > 300. -/
theorem back_to_top_visible_iff_over_300 (o : ℚ) :
    ((backToTopScroll o).makesVisible = true ↔ 300 < o) ∧
    (backToTopScroll o).isAnimatedFade = true ∧
    (backToTopScroll o).fadeDuration = some "slow" := by
  by_cases h : 300 < o <;>
    simp [backToTopScroll, h, VisibilityAction.makesVisible,
      VisibilityAction.isAnimatedFade, VisibilityAction.fadeDuration]

/-! ## Claim about the startup guards (C6) -/

/-- C6: for every combination of present and absent optional libraries, the
startup sequence returns without throwing; the WOW initializer runs exactly
when the WOW global is defined, the carousel initializers run exactly when
the carousel plugin is on `$.fn`, and the scroll reactor, quantity stepper,
back-to-top listeners and placeholder-link interceptor are registered in
every case. -/
theorem startup_guarded_no_throw (w f c : Bool) :
    ∃ r, startup ⟨w, f, c⟩ = Except.ok r ∧
      r.navScrollRegistered = true ∧
      r.quantityHandlerRegistered = true ∧
      r.backToTopScrollRegistered = true ∧
      r.backToTopClickRegistered = true ∧
      r.placeholderInterceptorRegistered = true ∧
      r.wowInitialized = w ∧
      r.carouselsInitialized = (if f && c then carouselInits else []) := by
  cases w <;> cases f <;> cases c <;>
    exact ⟨_, rfl, rfl, rfl, rfl, rfl, rfl, rfl, rfl⟩

/-! ## Claim about the back-to-top click handler (C7) -/

/-- C7: for every state of the easing plugin and every starting scroll
offset, a click on `.back-to-top` launches a scroll animation to position 0
with the fixed duration 1500 ms, picking easeInOutExpo when the easing
plugin is present and the standard fallback swing otherwise; the handler
suppresses the default anchor navigation, and its outcome does not depend
on the starting offset. -/
theorem back_to_top_click_spec (e1 e2 : Bool) (o : ℚ) :
    (backToTopClick e1 e2 o).animation.scrollTopTarget = 0 ∧
    (backToTopClick e1 e2 o).animation.durationMs = 1500 ∧
    (backToTopClick e1 e2 o).animation.easing =
      (if e1 && e2 then "easeInOutExpo" else "swing") ∧
    (backToTopClick e1 e2 o).defaultPrevented = true ∧
    backToTopClick e1 e2 o = backToTopClick e1 e2 0 :=
  ⟨rfl, rfl, rfl, rfl, rfl⟩

/-! ## Claim about the placeholder-link interceptor (C8) -/

/-- C8: a click on an `a[href="#"]` element without the data-bs-toggle
attribute is default-prevented, so it leaves the scroll position and URL
fragment unchanged; on an element with the attribute the interceptor
returns without calling preventDefault, so the default (or widget)
behavior proceeds. -/
theorem placeholder_link_interception (st : PageState) :
    clickEmptyHashAnchor false st = st ∧
    placeholderInterceptor false = true ∧
    placeholderInterceptor true = false ∧
    clickEmptyHashAnchor true st = anchorHashDefaultNav st :=
  ⟨rfl, rfl, rfl, rfl⟩

/-! ## Claims about the carousel configurations (C9) -/

/-- C9, counterexample: not every carousel options record carries
responsive item-count breakpoints at 0/576/768/992/1200 px: the
header-carousel record has no responsive field at all (it sets a fixed
items: 1), so the conjunct of the claim requiring breakpoints in each of
the five records fails. -/
theorem carousel_breakpoints_counterexample :
    carouselInits.all (fun p => hasResponsiveBreakpoints p.2) = false ∧
    hasResponsiveBreakpoints headerCarouselOptions = false :=
  ⟨rfl, rfl⟩

/-- C9, amended: the five carousel regions are each initialized exactly
once (the selector list is exactly the five region names, without
repetition) with pairwise distinct options records, every record enables
autoplay, loop and nav arrows, and the two multi-item regions
(productList-carousel and related-carousel) carry responsive item-count
breakpoints at exactly 0/576/768/992/1200 px, while the other three fix a
single item and carry no responsive map; when the carousel plugin is
present the startup sequence performs exactly this list of
initializations. -/
theorem carousel_inits_spec (w : Bool) :
    carouselInits.map Prod.fst =
      ["header-carousel", "productList-carousel", "productImg-carousel",
       "single-carousel", "related-carousel"] ∧
    (carouselInits.map Prod.fst).Nodup ∧
    (carouselInits.map Prod.snd).Nodup ∧
    carouselInits.all (fun p => p.2.autoplay && p.2.loop && p.2.nav) = true ∧
    hasResponsiveBreakpoints productListCarouselOptions = true ∧
    hasResponsiveBreakpoints relatedCarouselOptions = true ∧
    headerCarouselOptions.responsive = none ∧
    productImgCarouselOptions.responsive = none ∧
    singleCarouselOptions.responsive = none ∧
    (∃ r, startup ⟨w, true, true⟩ = Except.ok r ∧
      r.carouselsInitialized = carouselInits) := by
  refine ⟨rfl, by decide, by decide, rfl, rfl, rfl, rfl, rfl, rfl, ?_⟩
  cases w <;> exact ⟨_, rfl, rfl⟩

end ElectroMain
